import Mathlib

/-!
Verification of the sensor backend server (src/app.js) against its
natural-language specification.

The JavaScript program is shallowly embedded: JS numbers are modelled as
rationals, the in-memory sensor registry as a list of sensors together with
the next-id counter, each HTTP handler as a pure function from the request
data and server state to a response and a new state, and the deferred
callbacks and scheduler ticks as events of a small-step transition system.
Random draws (uniform in [0,1)) appear as explicit rational parameters.
-/

namespace SensorServer

/-- Sensor lifecycle statuses, from the STATUS_* constants of src/app.js. -/
inductive Status where
  | INITIALIZING
  | ACTIVE
  | FAILED
  | RESTARTING
  | TERMINATING
deriving DecidableEq

/-- The string the server prints for each status value. -/
def statusString : Status → String
  | Status.INITIALIZING => "INITIALIZING"
  | Status.ACTIVE => "ACTIVE"
  | Status.FAILED => "FAILED"
  | Status.RESTARTING => "RESTARTING"
  | Status.TERMINATING => "TERMINATING"

/-- A sensor entity, mirroring the object literal built in createSensorRoute. -/
structure Sensor where
  id : Nat
  frequency : ℚ
  status : Status
  measurement : Option ℚ
deriving DecidableEq

/-- The mutable module-level state of src/app.js: the nextId counter and the
sensors array. -/
structure ServerState where
  nextId : Nat
  sensors : List Sensor
deriving DecidableEq

/-- Initial state: nextId = 1, sensors = []. -/
def initialState : ServerState := ⟨1, []⟩

/-- A JavaScript value as found in a parsed JSON request body field.
undefined models an absent field; nan models the NaN number (unreachable
via JSON but tested by the code); num models an ordinary number; other
models any non-number value such as a string, boolean, null or object. -/
inductive JsonVal where
  | undefined
  | nan
  | num (q : ℚ)
  | other
deriving DecidableEq

/-- JavaScript Number.isNaN: true only for the actual NaN value; it performs
no coercion, so it is false on undefined and on every non-number. -/
def jsIsNaN : JsonVal → Bool
  | JsonVal.nan => true
  | _ => false

/-- JavaScript Number.isInteger: true exactly for number values that are
mathematical integers. -/
def jsIsInteger : JsonVal → Bool
  | JsonVal.num q => q.den == 1
  | _ => false

/-- The numeric value of a JsonVal; only consulted on the path where
jsIsInteger already guarantees the value is a number. -/
def jsNumValue : JsonVal → ℚ
  | JsonVal.num q => q
  | _ => 0

/-- A JavaScript number as produced by Number(string): either NaN or a
rational value. -/
inductive JsNum where
  | nan
  | num (q : ℚ)
deriving DecidableEq

/-- The restart action name. -/
def ACTION_RESTART : String := "restart"

/-- The terminate action name. -/
def ACTION_TERMINATE : String := "terminate"

/-- Request delay lower bound (ms). -/
def DELAY_REQ_MIN : ℚ := 0

/-- Request delay upper bound (ms). -/
def DELAY_REQ_MAX : ℚ := 1000

/-- Hang rate: 0.05 when unreliable, else 0. -/
def ERROR_HANG_RATE (unreliable : Bool) : ℚ := if unreliable then 5/100 else 0

/-- 502 rate: 0.05 when unreliable, else 0. -/
def ERROR_502_RATE (unreliable : Bool) : ℚ := if unreliable then 5/100 else 0

/-- Connection-close rate: 0.05 when unreliable, else 0. -/
def ERROR_CLOSE_RATE (unreliable : Bool) : ℚ := if unreliable then 5/100 else 0

/-- Plain-text error rate: 0.05 when unreliable, else 0. -/
def ERROR_TEXT_ERROR (unreliable : Bool) : ℚ := if unreliable then 5/100 else 0

/-- Sensor failure rate: 0.2 when --fail-sensors is given, else 0. -/
def FAILURE_RATE (shouldFailSensors : Bool) : ℚ := if shouldFailSensors then 2/10 else 0

/-- The plain-text body sent by the malformed-body fault. -/
def ERROR_TEXT_CONTENT : String := "This site is inaccessible. Please try again."

/-- getRequestDelay, with the uniform [0,1) draw made explicit. -/
def getRequestDelay (rand : ℚ) : ℚ := DELAY_REQ_MIN + rand * (DELAY_REQ_MAX - DELAY_REQ_MIN)

/-- getMeasurement, with the uniform [0,1) draw made explicit:
Math.random() * 100. -/
def getMeasurement (rand : ℚ) : ℚ := rand * 100

/-- The possible outcomes of the fault-injection gate. -/
inductive GateOutcome where
  | hang
  | status502
  | closeConn
  | textError
  | pass
deriving DecidableEq

/-- randomErrorsMiddleware of src/app.js, with the Math.random() draw made
explicit.  A single roll is sequentially decremented by the four error
rates; the first decrement that makes it negative selects the outcome, and
if none does the middleware calls next() (outcome pass). -/
def randomErrorsMiddleware (unreliable : Bool) (roll : ℚ) : GateOutcome :=
  let r1 := roll - ERROR_HANG_RATE unreliable
  if r1 < 0 then GateOutcome.hang else
  let r2 := r1 - ERROR_502_RATE unreliable
  if r2 < 0 then GateOutcome.status502 else
  let r3 := r2 - ERROR_CLOSE_RATE unreliable
  if r3 < 0 then GateOutcome.closeConn else
  let r4 := r3 - ERROR_TEXT_ERROR unreliable
  if r4 < 0 then GateOutcome.textError else
  GateOutcome.pass

/-- The state of an Express response object as far as the gate touches it. -/
structure ResponseState where
  statusCode : Nat
  sent : Bool
  body : Option String
  connectionDestroyed : Bool
deriving DecidableEq

/-- A fresh Express response: status 200, nothing sent. -/
def initialResponse : ResponseState :=
  { statusCode := 200, sent := false, body := none, connectionDestroyed := false }

/-- What each gate outcome does to the response, following the middleware
body literally.  hang: plain return, nothing touched.  status502:
res.status(502) sets the status code and returns WITHOUT sending, so the
response is never ended.  closeConn: res.connection.destroy().  textError:
res.status(500).send(text) both sets the status and sends the body.
pass: the middleware calls next() and leaves the response alone. -/
def applyGateOutcome : GateOutcome → ResponseState → ResponseState
  | GateOutcome.hang, r => r
  | GateOutcome.status502, r => { r with statusCode := 502 }
  | GateOutcome.closeConn, r => { r with connectionDestroyed := true }
  | GateOutcome.textError, r =>
      { r with statusCode := 500, sent := true, body := some ERROR_TEXT_CONTENT }
  | GateOutcome.pass, r => r

/-- Modelled from the spec: the gate is an ordered list of (rate, category)
pairs; the single draw is sequentially decremented by each rate in order and
the first category whose subtraction drives the running value negative is
applied; if none triggers the request proceeds normally (pass). -/
def selectCategory (roll : ℚ) : List (ℚ × GateOutcome) → GateOutcome
  | [] => GateOutcome.pass
  | (rate, c) :: rest => if roll - rate < 0 then c else selectCategory (roll - rate) rest

/-- The ordered list of configured rates of the gate: hang, 502, close,
malformed body. -/
def configuredRates (unreliable : Bool) : List (ℚ × GateOutcome) :=
  [ (ERROR_HANG_RATE unreliable, GateOutcome.hang)
  , (ERROR_502_RATE unreliable, GateOutcome.status502)
  , (ERROR_CLOSE_RATE unreliable, GateOutcome.closeConn)
  , (ERROR_TEXT_ERROR unreliable, GateOutcome.textError) ]

/-- A handler's response: an error status with a structured error body, a
sensor object (sent with status 200), the ok acknowledgement (200
with body ok), or the list of ids. -/
inductive HandlerResult where
  | errorResp (status : Nat) (error : String)
  | sensorResp (s : Sensor)
  | okResp
  | idsResp (ids : List Nat)
deriving DecidableEq

/-- sensors.find(s => s.id === sensorId): the first sensor whose id equals
the requested (floating-point) id. -/
def findById (l : List Sensor) (q : ℚ) : Option Sensor :=
  l.find? (fun s => (s.id : ℚ) == q)

/-- Set the status of the first sensor satisfying the predicate, leaving the
rest of the list alone.  This is the list-level reading of mutating the
status field of the object returned by sensors.find. -/
def setStatusFirst (p : Sensor → Bool) (newStatus : Status) : List Sensor → List Sensor
  | [] => []
  | s :: rest =>
      if p s then { s with status := newStatus } :: rest
      else s :: setStatusFirst p newStatus rest

/-- getSensorIdsRoute: res.json(sensors.map(s => s.id)). -/
def getSensorIdsRoute (st : ServerState) : HandlerResult :=
  HandlerResult.idsResp (st.sensors.map Sensor.id)

/-- The creation step shared by the create route: builds the sensor with the
current nextId, pushes it and increments nextId. -/
def createSensor (f : ℚ) (st : ServerState) : Sensor × ServerState :=
  let s : Sensor := { id := st.nextId, frequency := f, status := Status.INITIALIZING, measurement := none }
  (s, { nextId := st.nextId + 1, sensors := st.sensors ++ [s] })

/-- createSensorRoute of src/app.js.  Note the first guard is the literal
Number.isNaN(frequency): it is true only for the NaN value, NOT for an
absent (undefined) field. -/
def createSensorRoute (frequency : JsonVal) (st : ServerState) : HandlerResult × ServerState :=
  if jsIsNaN frequency then (HandlerResult.errorResp 400 "missing frequency", st)
  else if !(jsIsInteger frequency) then (HandlerResult.errorResp 400 "invalid frequency", st)
  else
    let r := createSensor (jsNumValue frequency) st
    (HandlerResult.sensorResp r.1, r.2)

/-- getSensorRoute of src/app.js.  The id check is (!sensorId ||
Number.isNaN(sensorId)): NaN and 0 are rejected as invalid. -/
def getSensorRoute (idv : JsNum) (st : ServerState) : HandlerResult × ServerState :=
  match idv with
  | JsNum.nan => (HandlerResult.errorResp 400 "invalid id", st)
  | JsNum.num q =>
    if q = 0 then (HandlerResult.errorResp 400 "invalid id", st)
    else
      match findById st.sensors q with
      | none => (HandlerResult.errorResp 404 "not found", st)
      | some s => (HandlerResult.sensorResp s, st)

/-- changeSensorRoute of src/app.js: id validity, then existence, then the
status gate, then the action dispatch, in that order.  The deferred
callbacks the route schedules (restart completion, terminate completion)
are modelled as separate events below. -/
def changeSensorRoute (idv : JsNum) (action : String) (st : ServerState) :
    HandlerResult × ServerState :=
  match idv with
  | JsNum.nan => (HandlerResult.errorResp 400 "invalid id", st)
  | JsNum.num q =>
    if q = 0 then (HandlerResult.errorResp 400 "invalid id", st)
    else
      match findById st.sensors q with
      | none => (HandlerResult.errorResp 404 "not found", st)
      | some sensor =>
        if ¬ (sensor.status = Status.ACTIVE ∨ sensor.status = Status.FAILED) then
          (HandlerResult.errorResp 400 ("sensor status is " ++ statusString sensor.status), st)
        else if action = ACTION_RESTART then
          (HandlerResult.okResp,
           { st with sensors := setStatusFirst (fun s => (s.id : ℚ) == q) Status.RESTARTING st.sensors })
        else if action = ACTION_TERMINATE then
          (HandlerResult.okResp,
           { st with sensors := setStatusFirst (fun s => (s.id : ℚ) == q) Status.TERMINATING st.sensors })
        else (HandlerResult.errorResp 400 "invalid action", st)

/-- triggerIntermittentFailures of src/app.js: the indexed for-loop over the
sensors array, with the per-index Math.random() draw made explicit.  Only a
sensor whose status is ACTIVE and whose draw is below the failure rate is
flipped to FAILED. -/
def triggerIntermittentFailures (draws : Nat → ℚ) (rate : ℚ) : Nat → List Sensor → List Sensor
  | _, [] => []
  | i, s :: rest =>
      (if s.status = Status.ACTIVE ∧ draws i < rate then { s with status := Status.FAILED } else s)
        :: triggerIntermittentFailures draws rate (i + 1) rest

/-- triggerMeasurements of src/app.js: the indexed for-loop over the sensors
array; only an ACTIVE sensor has its measurement overwritten with
getMeasurement(). -/
def triggerMeasurements (draws : Nat → ℚ) : Nat → List Sensor → List Sensor
  | _, [] => []
  | i, s :: rest =>
      (if s.status = Status.ACTIVE then { s with measurement := some (getMeasurement (draws i)) } else s)
        :: triggerMeasurements draws (i + 1) rest

/-- The list with the first sensor of the given id removed, or none when no
sensor has that id.  This is sensors.splice(i, 1) for i =
sensors.indexOf(sensor) when the sensor is present. -/
def removeFirstById : List Sensor → Nat → Option (List Sensor)
  | [], _ => none
  | s :: rest, sid =>
      if s.id = sid then some rest
      else (removeFirstById rest sid).map (fun l => s :: l)

/-- The deferred terminate completion sensors.splice(sensors.indexOf(sensor), 1).
When the sensor is present this removes it; when it is absent, indexOf
returns -1 and splice(-1, 1) removes the LAST element of the array (and
removes nothing from an empty array), which List.dropLast renders exactly. -/
def removeSensor (l : List Sensor) (sid : Nat) : List Sensor :=
  match removeFirstById l sid with
  | some l2 => l2
  | none => l.dropLast

/-- The events that mutate the module-level state: the state-changing
requests, the deferred action-delay callbacks scheduled by the routes, and
the two scheduler ticks.  Callbacks carry the id of the sensor object they
captured; firing a callback for a sensor no longer in the array only
mutates the captured object, which the registry no longer sees, so such a
firing leaves the sensors array unchanged (except the terminate completion,
whose splice misbehaves, see removeSensor).  Events may occur in any
order, an over-approximation of the real scheduling. -/
inductive Event where
  | createReq (frequency : JsonVal)
  | actionReq (idv : JsNum) (action : String)
  | activateCb (sid : Nat)
  | restartCb (sid : Nat)
  | terminateCb (sid : Nat)
  | failureTick (draws : Nat → ℚ) (rate : ℚ)
  | measureTick (draws : Nat → ℚ)

/-- The state transition each event performs. -/
def step : Event → ServerState → ServerState
  | Event.createReq fv, st => (createSensorRoute fv st).2
  | Event.actionReq idv a, st => (changeSensorRoute idv a st).2
  | Event.activateCb sid, st =>
      { st with sensors := setStatusFirst (fun s => s.id == sid) Status.ACTIVE st.sensors }
  | Event.restartCb sid, st =>
      { st with sensors := setStatusFirst (fun s => s.id == sid) Status.ACTIVE st.sensors }
  | Event.terminateCb sid, st =>
      { st with sensors := removeSensor st.sensors sid }
  | Event.failureTick draws rate, st =>
      { st with sensors := triggerIntermittentFailures draws rate 0 st.sensors }
  | Event.measureTick draws, st =>
      { st with sensors := triggerMeasurements draws 0 st.sensors }

/-- Run a sequence of events from a state. -/
def run (evs : List Event) (st : ServerState) : ServerState :=
  evs.foldl (fun s e => step e s) st

/-- The ids handed out to newly created sensors along an event sequence, in
creation order. -/
def assignedIds : List Event → ServerState → List Nat
  | [], _ => []
  | e :: evs, st =>
      (match e with
       | Event.createReq fv =>
           match (createSensorRoute fv st).1 with
           | HandlerResult.sensorResp s => [s.id]
           | _ => []
       | _ => []) ++ assignedIds evs (step e st)

/-- The registry invariant: every stored id is below the nextId counter, and
no two stored sensors share an id. -/
def Inv (st : ServerState) : Prop :=
  (∀ x ∈ st.sensors.map Sensor.id, x < st.nextId) ∧ (st.sensors.map Sensor.id).Nodup

/-- The per-route middleware stages registered in src/app.js. -/
inductive Stage where
  | requestDelayMiddleware
  | randomErrorsMiddleware
  | indexHandler
  | sensorIdsHandler
  | createSensorHandler
  | getSensorHandler
  | changeSensorHandler
  | debugHandler
deriving DecidableEq

/-- One route registration: HTTP method, path pattern and the ordered
middleware pipeline. -/
structure Route where
  method : String
  path : String
  pipeline : List Stage
deriving DecidableEq

/-- The route table of src/app.js, in registration order.  Only the four
sensor routes mount the delay and the fault gate; the index and debug
routes mount neither. -/
def routes : List Route :=
  [ ⟨"GET", "/", [Stage.indexHandler]⟩
  , ⟨"GET", "/sensor-ids",
      [Stage.requestDelayMiddleware, Stage.randomErrorsMiddleware, Stage.sensorIdsHandler]⟩
  , ⟨"POST", "/sensors",
      [Stage.requestDelayMiddleware, Stage.randomErrorsMiddleware, Stage.createSensorHandler]⟩
  , ⟨"GET", "/sensors/:id",
      [Stage.requestDelayMiddleware, Stage.randomErrorsMiddleware, Stage.getSensorHandler]⟩
  , ⟨"POST", "/sensors/:id/:action",
      [Stage.requestDelayMiddleware, Stage.randomErrorsMiddleware, Stage.changeSensorHandler]⟩
  , ⟨"GET", "/debug", [Stage.debugHandler]⟩ ]

/-! ### Registry helper lemmas -/

theorem setStatusFirst_map_id (p : Sensor → Bool) (ns : Status) (l : List Sensor) :
    (setStatusFirst p ns l).map Sensor.id = l.map Sensor.id := by
  induction l with
  | nil => rfl
  | cons s rest ih =>
    simp only [setStatusFirst]
    split
    · simp
    · simp [ih]

theorem triggerIntermittentFailures_map_id (draws : Nat → ℚ) (rate : ℚ) (l : List Sensor) :
    ∀ i, (triggerIntermittentFailures draws rate i l).map Sensor.id = l.map Sensor.id := by
  induction l with
  | nil => intro i; rfl
  | cons s rest ih =>
    intro i
    simp only [triggerIntermittentFailures]
    split
    · simp [ih]
    · simp [ih]

theorem triggerMeasurements_map_id (draws : Nat → ℚ) (l : List Sensor) :
    ∀ i, (triggerMeasurements draws i l).map Sensor.id = l.map Sensor.id := by
  induction l with
  | nil => intro i; rfl
  | cons s rest ih =>
    intro i
    simp only [triggerMeasurements]
    split
    · simp [ih]
    · simp [ih]

theorem removeFirstById_sublist (sid : Nat) :
    ∀ l l2 : List Sensor, removeFirstById l sid = some l2 → l2.Sublist l := by
  intro l
  induction l with
  | nil => intro l2 h; simp [removeFirstById] at h
  | cons s rest ih =>
    intro l2 h
    simp only [removeFirstById] at h
    split at h
    · cases h
      exact List.sublist_cons_self s rest
    · cases hr : removeFirstById rest sid with
      | none => rw [hr] at h; simp at h
      | some l3 =>
        rw [hr] at h
        simp only [Option.map_some'] at h
        cases h
        exact (ih l3 hr).cons₂ s

theorem removeSensor_sublist (l : List Sensor) (sid : Nat) :
    (removeSensor l sid).Sublist l := by
  rw [removeSensor]
  cases hr : removeFirstById l sid with
  | none => exact List.dropLast_sublist l
  | some l2 => exact removeFirstById_sublist sid l l2 hr

theorem removeFirstById_eq_none (sid : Nat) :
    ∀ l : List Sensor, removeFirstById l sid = none → ∀ s ∈ l, s.id ≠ sid := by
  intro l
  induction l with
  | nil => intro _ s hs; simp at hs
  | cons t rest ih =>
    intro h s hs
    simp only [removeFirstById] at h
    split at h
    · cases h
    · rcases List.mem_cons.mp hs with rfl | hmem
      · rename_i hne
        exact fun hc => hne hc
      · cases hr : removeFirstById rest sid with
        | none => exact ih hr s hmem
        | some l3 => rw [hr] at h; simp at h

theorem not_mem_removeSensor (sid : Nat) :
    ∀ l : List Sensor, (l.map Sensor.id).Nodup → sid ∉ (removeSensor l sid).map Sensor.id := by
  intro l
  induction l with
  | nil => intro _ h; simp [removeSensor, removeFirstById] at h
  | cons s rest ih =>
    intro hnd
    simp only [List.map_cons, List.nodup_cons] at hnd
    by_cases hid : s.id = sid
    · have hrm : removeSensor (s :: rest) sid = rest := by
        simp [removeSensor, removeFirstById, hid]
      rw [hrm]
      rw [← hid]
      exact hnd.1
    · cases hr : removeFirstById rest sid with
      | some l3 =>
        have hrm : removeSensor (s :: rest) sid = s :: l3 := by
          simp [removeSensor, removeFirstById, hid, hr]
        rw [hrm]
        intro hmem
        rcases List.mem_cons.mp hmem with heq | hmem2
        · exact hid heq.symm
        · have : removeSensor rest sid = l3 := by simp [removeSensor, hr]
          exact ih hnd.2 (this ▸ hmem2)
      | none =>
        have hrm : removeSensor (s :: rest) sid = (s :: rest).dropLast := by
          simp [removeSensor, removeFirstById, hid, hr]
        rw [hrm]
        intro hmem
        have hsub : ((s :: rest).dropLast.map Sensor.id).Sublist ((s :: rest).map Sensor.id) :=
          (List.dropLast_sublist (s :: rest)).map Sensor.id
        have hmem2 : sid ∈ (s :: rest).map Sensor.id := hsub.subset hmem
        simp only [List.map_cons, List.mem_cons] at hmem2
        rcases hmem2 with heq | hmem3
        · exact hid heq.symm
        · rcases List.mem_map.mp hmem3 with ⟨t, ht, hts⟩
          exact removeFirstById_eq_none sid rest hr t ht hts

theorem findById_some (l : List Sensor) (q : ℚ) (s : Sensor)
    (h : findById l q = some s) : s ∈ l ∧ (s.id : ℚ) = q := by
  refine ⟨List.mem_of_find?_eq_some h, ?_⟩
  have := List.find?_some h
  rwa [beq_iff_eq] at this

theorem findById_eq_none_of_not_mem (l : List Sensor) (sid : Nat)
    (h : sid ∉ l.map Sensor.id) : findById l (sid : ℚ) = none := by
  rw [findById, List.find?_eq_none]
  intro s hs hbeq
  rw [beq_iff_eq, Nat.cast_inj] at hbeq
  exact h (hbeq ▸ List.mem_map_of_mem Sensor.id hs)

/-! ### Route state effects -/

theorem changeSensorRoute_state (idv : JsNum) (a : String) (st : ServerState) :
    (changeSensorRoute idv a st).2.nextId = st.nextId ∧
    (changeSensorRoute idv a st).2.sensors.map Sensor.id = st.sensors.map Sensor.id := by
  cases idv with
  | nan => exact ⟨rfl, rfl⟩
  | num q =>
    simp only [changeSensorRoute]
    split
    · exact ⟨rfl, rfl⟩
    · cases hf : findById st.sensors q with
      | none => simp
      | some sensor =>
        simp only
        split
        · exact ⟨rfl, rfl⟩
        · split
          · exact ⟨rfl, setStatusFirst_map_id _ _ _⟩
          · split
            · exact ⟨rfl, setStatusFirst_map_id _ _ _⟩
            · exact ⟨rfl, rfl⟩

theorem createSensorRoute_success (fv : JsonVal) (st : ServerState)
    (h1 : jsIsNaN fv = false) (h2 : jsIsInteger fv = true) :
    createSensorRoute fv st =
      (HandlerResult.sensorResp
        { id := st.nextId, frequency := jsNumValue fv, status := Status.INITIALIZING,
          measurement := none },
       { nextId := st.nextId + 1,
         sensors := st.sensors ++
           [{ id := st.nextId, frequency := jsNumValue fv, status := Status.INITIALIZING,
              measurement := none }] }) := by
  simp [createSensorRoute, h1, h2, createSensor]

theorem createSensorRoute_fail_state (fv : JsonVal) (st : ServerState)
    (h : jsIsNaN fv = true ∨ jsIsInteger fv = false) :
    (createSensorRoute fv st).2 = st := by
  rcases h with h | h
  · simp [createSensorRoute, h]
  · cases h1 : jsIsNaN fv
    · simp [createSensorRoute, h1, h]
    · simp [createSensorRoute, h1]

/-! ### Step lemmas -/

theorem step_nextId_mono (e : Event) (st : ServerState) : st.nextId ≤ (step e st).nextId := by
  cases e with
  | createReq fv =>
    cases h1 : jsIsNaN fv with
    | true =>
      rw [step, createSensorRoute_fail_state fv st (Or.inl h1)]
    | false =>
      cases h2 : jsIsInteger fv with
      | false =>
        rw [step, createSensorRoute_fail_state fv st (Or.inr h2)]
      | true =>
        rw [step, createSensorRoute_success fv st h1 h2]
        exact Nat.le_succ _
  | actionReq idv a => exact le_of_eq (changeSensorRoute_state idv a st).1.symm
  | activateCb sid => exact le_refl _
  | restartCb sid => exact le_refl _
  | terminateCb sid => exact le_refl _
  | failureTick draws rate => exact le_refl _
  | measureTick draws => exact le_refl _

theorem step_preserves_not_mem (e : Event) (st : ServerState) (sid : Nat)
    (hlt : sid < st.nextId) (hnm : sid ∉ st.sensors.map Sensor.id) :
    sid ∉ (step e st).sensors.map Sensor.id := by
  cases e with
  | createReq fv =>
    cases h1 : jsIsNaN fv with
    | true => rw [step, createSensorRoute_fail_state fv st (Or.inl h1)]; exact hnm
    | false =>
      cases h2 : jsIsInteger fv with
      | false => rw [step, createSensorRoute_fail_state fv st (Or.inr h2)]; exact hnm
      | true =>
        rw [step, createSensorRoute_success fv st h1 h2]
        simp only [List.map_append, List.map_cons, List.map_nil, List.mem_append,
          List.mem_cons, List.not_mem_nil, or_false]
        rintro (h | h)
        · exact hnm h
        · exact Nat.ne_of_lt hlt h
  | actionReq idv a => rw [step, (changeSensorRoute_state idv a st).2]; exact hnm
  | activateCb k => rw [step]; rw [setStatusFirst_map_id]; exact hnm
  | restartCb k => rw [step]; rw [setStatusFirst_map_id]; exact hnm
  | terminateCb k =>
    rw [step]
    intro hmem
    exact hnm (((removeSensor_sublist st.sensors k).map Sensor.id).subset hmem)
  | failureTick draws rate => rw [step]; rw [triggerIntermittentFailures_map_id]; exact hnm
  | measureTick draws => rw [step]; rw [triggerMeasurements_map_id]; exact hnm

theorem step_preserves_Inv (e : Event) (st : ServerState) (h : Inv st) : Inv (step e st) := by
  obtain ⟨hbound, hnd⟩ := h
  cases e with
  | createReq fv =>
    cases h1 : jsIsNaN fv with
    | true => rw [step, createSensorRoute_fail_state fv st (Or.inl h1)]; exact ⟨hbound, hnd⟩
    | false =>
      cases h2 : jsIsInteger fv with
      | false => rw [step, createSensorRoute_fail_state fv st (Or.inr h2)]; exact ⟨hbound, hnd⟩
      | true =>
        rw [step, createSensorRoute_success fv st h1 h2]
        constructor
        · intro x hx
          simp only [List.map_append, List.map_cons, List.map_nil, List.mem_append,
            List.mem_cons, List.not_mem_nil, or_false] at hx
          rcases hx with hx | hx
          · exact Nat.lt_succ_of_lt (hbound x hx)
          · exact hx ▸ Nat.lt_succ_self _
        · simp only [List.map_append, List.map_cons, List.map_nil]
          rw [List.nodup_append]
          refine ⟨hnd, List.nodup_singleton _, ?_⟩
          intro x hx hx2
          simp only [List.mem_singleton] at hx2
          exact absurd (hbound x hx) (hx2 ▸ lt_irrefl _)
  | actionReq idv a =>
    refine ⟨?_, ?_⟩
    · rw [step, (changeSensorRoute_state idv a st).2, (changeSensorRoute_state idv a st).1]
      exact hbound
    · rw [step, (changeSensorRoute_state idv a st).2]; exact hnd
  | activateCb k =>
    rw [step]
    exact ⟨by rw [setStatusFirst_map_id]; exact hbound, by rw [setStatusFirst_map_id]; exact hnd⟩
  | restartCb k =>
    rw [step]
    exact ⟨by rw [setStatusFirst_map_id]; exact hbound, by rw [setStatusFirst_map_id]; exact hnd⟩
  | terminateCb k =>
    rw [step]
    refine ⟨?_, ?_⟩
    · intro x hx
      exact hbound x (((removeSensor_sublist st.sensors k).map Sensor.id).subset hx)
    · exact hnd.sublist ((removeSensor_sublist st.sensors k).map Sensor.id)
  | failureTick draws rate =>
    rw [step]
    exact ⟨by rw [triggerIntermittentFailures_map_id]; exact hbound,
           by rw [triggerIntermittentFailures_map_id]; exact hnd⟩
  | measureTick draws =>
    rw [step]
    exact ⟨by rw [triggerMeasurements_map_id]; exact hbound,
           by rw [triggerMeasurements_map_id]; exact hnd⟩

theorem run_preserves_not_mem (evs : List Event) :
    ∀ st : ServerState, ∀ sid : Nat, Inv st → sid < st.nextId →
      sid ∉ st.sensors.map Sensor.id → sid ∉ (run evs st).sensors.map Sensor.id := by
  induction evs with
  | nil => intro st sid _ _ h; exact h
  | cons e evs ih =>
    intro st sid hInv hlt hnm
    have hr : run (e :: evs) st = run evs (step e st) := rfl
    rw [hr]
    exact ih (step e st) sid (step_preserves_Inv e st hInv)
      (lt_of_lt_of_le hlt (step_nextId_mono e st))
      (step_preserves_not_mem e st sid hlt hnm)

/-! ### Assigned-id lemmas -/

theorem assignedIds_lower_bound (evs : List Event) :
    ∀ st : ServerState, ∀ x ∈ assignedIds evs st, st.nextId ≤ x := by
  induction evs with
  | nil => intro st x hx; simp [assignedIds] at hx
  | cons e evs ih =>
    intro st x hx
    cases e with
    | createReq fv =>
      cases h1 : jsIsNaN fv with
      | true =>
        have hs : step (Event.createReq fv) st = st := createSensorRoute_fail_state fv st (Or.inl h1)
        simp only [assignedIds, createSensorRoute, h1, if_true] at hx
        simp only [List.nil_append] at hx
        rw [hs] at hx
        exact ih st x hx
      | false =>
        cases h2 : jsIsInteger fv with
        | false =>
          have hs : step (Event.createReq fv) st = st :=
            createSensorRoute_fail_state fv st (Or.inr h2)
          simp only [assignedIds, createSensorRoute, h1, h2, Bool.false_eq_true, if_false,
            Bool.not_false, if_true] at hx
          simp only [List.nil_append] at hx
          rw [hs] at hx
          exact ih st x hx
        | true =>
          have hcr := createSensorRoute_success fv st h1 h2
          have hs : step (Event.createReq fv) st = (createSensorRoute fv st).2 := rfl
          simp only [assignedIds, hcr] at hx
          rw [hs, hcr] at hx
          simp only [List.singleton_append, List.mem_cons] at hx
          rcases hx with rfl | hx
          · exact le_refl _
          · have := ih _ x hx
            simp only at this
            exact le_trans (Nat.le_succ _) this
    | actionReq idv a =>
      simp only [assignedIds, List.nil_append] at hx
      exact le_trans (step_nextId_mono (Event.actionReq idv a) st) (ih _ x hx)
    | activateCb k =>
      simp only [assignedIds, List.nil_append] at hx
      exact le_trans (step_nextId_mono (Event.activateCb k) st) (ih _ x hx)
    | restartCb k =>
      simp only [assignedIds, List.nil_append] at hx
      exact le_trans (step_nextId_mono (Event.restartCb k) st) (ih _ x hx)
    | terminateCb k =>
      simp only [assignedIds, List.nil_append] at hx
      exact le_trans (step_nextId_mono (Event.terminateCb k) st) (ih _ x hx)
    | failureTick draws rate =>
      simp only [assignedIds, List.nil_append] at hx
      exact le_trans (step_nextId_mono (Event.failureTick draws rate) st) (ih _ x hx)
    | measureTick draws =>
      simp only [assignedIds, List.nil_append] at hx
      exact le_trans (step_nextId_mono (Event.measureTick draws) st) (ih _ x hx)

theorem assignedIds_pairwise (evs : List Event) :
    ∀ st : ServerState, (assignedIds evs st).Pairwise (· < ·) := by
  induction evs with
  | nil => intro st; simp [assignedIds]
  | cons e evs ih =>
    intro st
    cases e with
    | createReq fv =>
      cases h1 : jsIsNaN fv with
      | true =>
        simp only [assignedIds, createSensorRoute, h1, if_true, List.nil_append]
        exact ih _
      | false =>
        cases h2 : jsIsInteger fv with
        | false =>
          simp only [assignedIds, createSensorRoute, h1, h2, Bool.false_eq_true, if_false,
            Bool.not_false, if_true, List.nil_append]
          exact ih _
        | true =>
          have hcr := createSensorRoute_success fv st h1 h2
          simp only [assignedIds, hcr, List.singleton_append]
          rw [List.pairwise_cons]
          refine ⟨?_, ih _⟩
          intro y hy
          have hb := assignedIds_lower_bound evs _ y hy
          have hs : (step (Event.createReq fv) st).nextId = st.nextId + 1 := by
            show (createSensorRoute fv st).2.nextId = st.nextId + 1
            rw [hcr]
          rw [hs] at hb
          exact Nat.lt_of_succ_le hb
    | actionReq idv a =>
      simp only [assignedIds, List.nil_append]
      exact ih _
    | activateCb k =>
      simp only [assignedIds, List.nil_append]
      exact ih _
    | restartCb k =>
      simp only [assignedIds, List.nil_append]
      exact ih _
    | terminateCb k =>
      simp only [assignedIds, List.nil_append]
      exact ih _
    | failureTick draws rate =>
      simp only [assignedIds, List.nil_append]
      exact ih _
    | measureTick draws =>
      simp only [assignedIds, List.nil_append]
      exact ih _

/-! ### Scheduler positional lemmas -/

theorem triggerMeasurements_preserves_inactive (draws : Nat → ℚ) :
    ∀ (l : List Sensor) (j i : Nat) (s : Sensor), l[i]? = some s →
      s.status ≠ Status.ACTIVE → (triggerMeasurements draws j l)[i]? = some s := by
  intro l
  induction l with
  | nil => intro j i s h; simp at h
  | cons t rest ih =>
    intro j i s h hna
    cases i with
    | zero =>
      simp only [List.getElem?_cons_zero, Option.some.injEq] at h
      subst h
      simp only [triggerMeasurements]
      rw [if_neg hna]
      simp
    | succ i =>
      simp only [List.getElem?_cons_succ] at h
      simp only [triggerMeasurements]
      split
      · simpa using ih (j + 1) i s h hna
      · simpa using ih (j + 1) i s h hna

theorem triggerIntermittentFailures_preserves_inactive (draws : Nat → ℚ) (rate : ℚ) :
    ∀ (l : List Sensor) (j i : Nat) (s : Sensor), l[i]? = some s →
      s.status ≠ Status.ACTIVE → (triggerIntermittentFailures draws rate j l)[i]? = some s := by
  intro l
  induction l with
  | nil => intro j i s h; simp at h
  | cons t rest ih =>
    intro j i s h hna
    cases i with
    | zero =>
      simp only [List.getElem?_cons_zero, Option.some.injEq] at h
      subst h
      simp only [triggerIntermittentFailures]
      rw [if_neg (fun hc => hna hc.1)]
      simp
    | succ i =>
      simp only [List.getElem?_cons_succ] at h
      simp only [triggerIntermittentFailures]
      split
      · simpa using ih (j + 1) i s h hna
      · simpa using ih (j + 1) i s h hna

/-! ### Route behaviour lemmas -/

theorem changeSensorRoute_found (q : ℚ) (a : String) (st : ServerState) (sensor : Sensor)
    (hq : q ≠ 0) (hfind : findById st.sensors q = some sensor) :
    changeSensorRoute (JsNum.num q) a st =
      if ¬ (sensor.status = Status.ACTIVE ∨ sensor.status = Status.FAILED) then
        (HandlerResult.errorResp 400 ("sensor status is " ++ statusString sensor.status), st)
      else if a = ACTION_RESTART then
        (HandlerResult.okResp,
         { st with sensors :=
             setStatusFirst (fun s => (s.id : ℚ) == q) Status.RESTARTING st.sensors })
      else if a = ACTION_TERMINATE then
        (HandlerResult.okResp,
         { st with sensors :=
             setStatusFirst (fun s => (s.id : ℚ) == q) Status.TERMINATING st.sensors })
      else (HandlerResult.errorResp 400 "invalid action", st) := by
  simp only [changeSensorRoute, if_neg hq, hfind]

theorem getSensorRoute_not_found (sid : Nat) (st : ServerState) (hsid : sid ≠ 0)
    (h : sid ∉ st.sensors.map Sensor.id) :
    (getSensorRoute (JsNum.num (sid : ℚ)) st).1 = HandlerResult.errorResp 404 "not found" := by
  have hq : ((sid : ℚ)) ≠ 0 := Nat.cast_ne_zero.mpr hsid
  simp only [getSensorRoute, if_neg hq, findById_eq_none_of_not_mem st.sensors sid h]

/-! ### Claim theorems -/

/-- C1: for every request reaching the fault-injection gate, the outcome is
given by a single uniform [0,1) draw sequentially decremented by the hang,
bad-gateway, close and malformed-body rates in that order, the first
subtraction to go negative selecting the category and none selecting
pass-through; in reliable mode all four rates are 0 and every draw passes
the request through to the handler. -/
theorem C1_fault_gate_sequential_selection (unreliable : Bool) (roll : ℚ) (h0 : 0 ≤ roll) :
    randomErrorsMiddleware unreliable roll = selectCategory roll (configuredRates unreliable)
    ∧ ERROR_HANG_RATE false = 0 ∧ ERROR_502_RATE false = 0 ∧ ERROR_CLOSE_RATE false = 0
    ∧ ERROR_TEXT_ERROR false = 0
    ∧ randomErrorsMiddleware false roll = GateOutcome.pass := by
  refine ⟨rfl, rfl, rfl, rfl, rfl, ?_⟩
  have hn : ¬ (roll < 0) := not_lt.mpr h0
  simp [randomErrorsMiddleware, ERROR_HANG_RATE, ERROR_502_RATE, ERROR_CLOSE_RATE,
    ERROR_TEXT_ERROR, hn]

/-- Witness for C1 at the concrete draw 1/2. -/
theorem C1_fault_gate_sequential_selection_witness :
    randomErrorsMiddleware true (1/2) = selectCategory (1/2) (configuredRates true)
    ∧ ERROR_HANG_RATE false = 0 ∧ ERROR_502_RATE false = 0 ∧ ERROR_CLOSE_RATE false = 0
    ∧ ERROR_TEXT_ERROR false = 0
    ∧ randomErrorsMiddleware false (1/2) = GateOutcome.pass :=
  C1_fault_gate_sequential_selection true (1/2) (by norm_num)

/-- C2: the code evaluated at the claim's inputs.  A body with no frequency
field (undefined) is answered with the invalid-frequency error, NOT the
missing-frequency error the claim states, because Number.isNaN(undefined)
is false; a non-integer frequency (5/2, i.e. 2.5) gets the
invalid-frequency error and an integer frequency creates the sensor, as the
claim states. -/
theorem C2_create_validation_behaviour :
    (createSensorRoute JsonVal.undefined initialState).1
      = HandlerResult.errorResp 400 "invalid frequency"
    ∧ (createSensorRoute JsonVal.undefined initialState).1
      ≠ HandlerResult.errorResp 400 "missing frequency"
    ∧ (createSensorRoute (JsonVal.num (mkRat 5 2)) initialState).1
      = HandlerResult.errorResp 400 "invalid frequency"
    ∧ (createSensorRoute (JsonVal.num 2) initialState).1
      = HandlerResult.sensorResp
          { id := 1, frequency := 2, status := Status.INITIALIZING, measurement := none } := by
  refine ⟨rfl, by decide, by decide, by decide⟩

/-- C7: when the gate draws the bad-gateway category (e.g. at roll 7/100 in
unreliable mode), the middleware only sets the response status code to 502
and returns: the response is never sent, so no 502 with an empty body is
ever transmitted, contrary to the claim. -/
theorem C7_bad_gateway_sets_status_but_never_sends :
    randomErrorsMiddleware true (7/100) = GateOutcome.status502
    ∧ applyGateOutcome GateOutcome.status502 initialResponse
        = { statusCode := 502, sent := false, body := none, connectionDestroyed := false }
    ∧ (applyGateOutcome GateOutcome.status502 initialResponse).sent = false := by
  refine ⟨?_, rfl, rfl⟩
  norm_num [randomErrorsMiddleware, ERROR_HANG_RATE, ERROR_502_RATE]

/-- C9: the deferred terminate-completion removal applied to a registry that
does not contain the sensor is NOT a no-op: splice(indexOf = -1, 1) deletes
the last element, so removing absent id 2 from a one-sensor registry empties
it; only on an empty registry is it a no-op. -/
theorem C9_remove_absent_not_noop :
    removeSensor [{ id := 1, frequency := 5, status := Status.ACTIVE, measurement := none }] 2 = []
    ∧ removeSensor [{ id := 1, frequency := 5, status := Status.ACTIVE, measurement := none }] 2
        ≠ [{ id := 1, frequency := 5, status := Status.ACTIVE, measurement := none }]
    ∧ removeSensor [] 2 = [] := by
  refine ⟨rfl, by decide, rfl⟩

/-- C3: for a POST action addressing an existing sensor, the action is
acknowledged with ok exactly when the current status is ACTIVE or FAILED
and the action name is recognised; any other current status yields a 400
naming the current status, and an unrecognised action name (with an
actionable status) yields the 400 invalid-action error. -/
theorem C3_action_gated_by_status (q : ℚ) (action : String) (st : ServerState)
    (sensor : Sensor) (hq : q ≠ 0) (hfind : findById st.sensors q = some sensor) :
    ((changeSensorRoute (JsNum.num q) action st).1 = HandlerResult.okResp ↔
      ((sensor.status = Status.ACTIVE ∨ sensor.status = Status.FAILED) ∧
        (action = ACTION_RESTART ∨ action = ACTION_TERMINATE)))
    ∧ (¬ (sensor.status = Status.ACTIVE ∨ sensor.status = Status.FAILED) →
        (changeSensorRoute (JsNum.num q) action st).1
          = HandlerResult.errorResp 400 ("sensor status is " ++ statusString sensor.status))
    ∧ ((sensor.status = Status.ACTIVE ∨ sensor.status = Status.FAILED) →
        action ≠ ACTION_RESTART → action ≠ ACTION_TERMINATE →
        (changeSensorRoute (JsNum.num q) action st).1
          = HandlerResult.errorResp 400 "invalid action") := by
  rw [changeSensorRoute_found q action st sensor hq hfind]
  by_cases hs : sensor.status = Status.ACTIVE ∨ sensor.status = Status.FAILED
  · rw [if_neg (not_not_intro hs)]
    by_cases ha1 : action = ACTION_RESTART
    · simp [ha1, hs]
    · by_cases ha2 : action = ACTION_TERMINATE
      · have hta : ACTION_TERMINATE ≠ ACTION_RESTART := by decide
        simp [ha1, ha2, hs, hta]
      · simp [ha1, ha2, hs]
  · rw [if_pos hs]
    simp [hs]

/-- Witness for C3: a registry holding one ACTIVE sensor of id 1, restarted. -/
theorem C3_action_gated_by_status_witness :
    ((changeSensorRoute (JsNum.num 1) ACTION_RESTART
        ⟨2, [{ id := 1, frequency := 2, status := Status.ACTIVE, measurement := none }]⟩).1
        = HandlerResult.okResp ↔
      ((Status.ACTIVE = Status.ACTIVE ∨ Status.ACTIVE = Status.FAILED) ∧
        (ACTION_RESTART = ACTION_RESTART ∨ ACTION_RESTART = ACTION_TERMINATE)))
    ∧ (¬ (Status.ACTIVE = Status.ACTIVE ∨ Status.ACTIVE = Status.FAILED) →
        (changeSensorRoute (JsNum.num 1) ACTION_RESTART
          ⟨2, [{ id := 1, frequency := 2, status := Status.ACTIVE, measurement := none }]⟩).1
          = HandlerResult.errorResp 400 ("sensor status is " ++ statusString Status.ACTIVE))
    ∧ ((Status.ACTIVE = Status.ACTIVE ∨ Status.ACTIVE = Status.FAILED) →
        ACTION_RESTART ≠ ACTION_RESTART → ACTION_RESTART ≠ ACTION_TERMINATE →
        (changeSensorRoute (JsNum.num 1) ACTION_RESTART
          ⟨2, [{ id := 1, frequency := 2, status := Status.ACTIVE, measurement := none }]⟩).1
          = HandlerResult.errorResp 400 "invalid action") :=
  C3_action_gated_by_status 1 ACTION_RESTART
    ⟨2, [{ id := 1, frequency := 2, status := Status.ACTIVE, measurement := none }]⟩
    { id := 1, frequency := 2, status := Status.ACTIVE, measurement := none }
    (by norm_num) (by decide)

/-- C10: in the action handler the status check runs before the action-name
check, so an unrecognised action on an existing sensor whose status is
neither ACTIVE nor FAILED gets the 400 naming the current status, not the
400 invalid-action error. -/
theorem C10_status_error_shadows_invalid_action (q : ℚ) (action : String) (st : ServerState)
    (sensor : Sensor) (hq : q ≠ 0) (hfind : findById st.sensors q = some sensor)
    (hs1 : sensor.status ≠ Status.ACTIVE) (hs2 : sensor.status ≠ Status.FAILED)
    (ha1 : action ≠ ACTION_RESTART) (ha2 : action ≠ ACTION_TERMINATE) :
    (changeSensorRoute (JsNum.num q) action st).1
      = HandlerResult.errorResp 400 ("sensor status is " ++ statusString sensor.status)
    ∧ (changeSensorRoute (JsNum.num q) action st).1
      ≠ HandlerResult.errorResp 400 "invalid action" := by
  have hs : ¬ (sensor.status = Status.ACTIVE ∨ sensor.status = Status.FAILED) := by
    rintro (h | h)
    · exact hs1 h
    · exact hs2 h
  rw [changeSensorRoute_found q action st sensor hq hfind, if_pos hs]
  refine ⟨rfl, ?_⟩
  have hneq : ∀ x : Status, "sensor status is " ++ statusString x ≠ "invalid action" := by
    intro x
    cases x <;> decide
  intro hc
  injection hc with h1 h2
  exact hneq sensor.status h2

/-- Witness for C10: an INITIALIZING sensor addressed with an unknown
action name. -/
theorem C10_status_error_shadows_invalid_action_witness :
    (changeSensorRoute (JsNum.num 1) "activate"
        ⟨2, [{ id := 1, frequency := 4, status := Status.INITIALIZING, measurement := none }]⟩).1
      = HandlerResult.errorResp 400 ("sensor status is " ++ statusString Status.INITIALIZING)
    ∧ (changeSensorRoute (JsNum.num 1) "activate"
        ⟨2, [{ id := 1, frequency := 4, status := Status.INITIALIZING, measurement := none }]⟩).1
      ≠ HandlerResult.errorResp 400 "invalid action" :=
  C10_status_error_shadows_invalid_action 1 "activate"
    ⟨2, [{ id := 1, frequency := 4, status := Status.INITIALIZING, measurement := none }]⟩
    { id := 1, frequency := 4, status := Status.INITIALIZING, measurement := none }
    (by norm_num) (by decide) (by decide) (by decide) (by decide) (by decide)

/-- C5: one scheduler tick leaves every non-ACTIVE sensor untouched: the
measurement tick does not overwrite its measurement and the failure tick
does not change its status (both leave the whole sensor unchanged at its
position). -/
theorem C5_schedulers_touch_only_active (fdraws mdraws : Nat → ℚ) (rate : ℚ)
    (l : List Sensor) (i : Nat) (s : Sensor)
    (hs : l[i]? = some s) (hna : s.status ≠ Status.ACTIVE) :
    (triggerMeasurements mdraws 0 l)[i]? = some s
    ∧ (triggerIntermittentFailures fdraws rate 0 l)[i]? = some s :=
  ⟨triggerMeasurements_preserves_inactive mdraws l 0 i s hs hna,
   triggerIntermittentFailures_preserves_inactive fdraws rate l 0 i s hs hna⟩

/-- Witness for C5: a FAILED sensor survives both ticks unchanged. -/
theorem C5_schedulers_touch_only_active_witness :
    (triggerMeasurements (fun _ => 0) 0
        [{ id := 1, frequency := 2, status := Status.FAILED, measurement := none }])[0]?
      = some { id := 1, frequency := 2, status := Status.FAILED, measurement := none }
    ∧ (triggerIntermittentFailures (fun _ => 0) 1 0
        [{ id := 1, frequency := 2, status := Status.FAILED, measurement := none }])[0]?
      = some { id := 1, frequency := 2, status := Status.FAILED, measurement := none } :=
  C5_schedulers_touch_only_active (fun _ => 0) (fun _ => 0) 1
    [{ id := 1, frequency := 2, status := Status.FAILED, measurement := none }] 0
    { id := 1, frequency := 2, status := Status.FAILED, measurement := none }
    (by decide) (by decide)

/-- C6: along every event sequence from process start, the ids handed to
newly created sensors are strictly increasing, hence never reused, even
across terminations. -/
theorem C6_assigned_ids_strictly_increasing (evs : List Event) :
    (assignedIds evs initialState).Pairwise (· < ·)
    ∧ (assignedIds evs initialState).Nodup :=
  ⟨assignedIds_pairwise evs initialState,
   (assignedIds_pairwise evs initialState).imp (fun h => Nat.ne_of_lt h)⟩

/-- Witness for C6 at a concrete event sequence: two creates interleaved
with a terminate completion. -/
theorem C6_assigned_ids_strictly_increasing_witness :
    (assignedIds
        [Event.createReq (JsonVal.num 2), Event.terminateCb 1,
         Event.createReq (JsonVal.num 3)] initialState).Pairwise (· < ·)
    ∧ (assignedIds
        [Event.createReq (JsonVal.num 2), Event.terminateCb 1,
         Event.createReq (JsonVal.num 3)] initialState).Nodup :=
  C6_assigned_ids_strictly_increasing
    [Event.createReq (JsonVal.num 2), Event.terminateCb 1, Event.createReq (JsonVal.num 3)]

/-- C4: once a terminate action is accepted on an existing sensor (status
ACTIVE or FAILED) and its deferred completion fires, the sensor is removed
and stays unobservable: after any further sequence of events whatsoever,
GET for that id answers 404 not-found. -/
theorem C4_terminate_removes_permanently (st : ServerState) (sid : Nat) (sensor : Sensor)
    (hInv : Inv st) (hsid : sid ≠ 0)
    (hfind : findById st.sensors (sid : ℚ) = some sensor)
    (hstatus : sensor.status = Status.ACTIVE ∨ sensor.status = Status.FAILED)
    (evs : List Event) :
    (changeSensorRoute (JsNum.num (sid : ℚ)) ACTION_TERMINATE st).1 = HandlerResult.okResp
    ∧ (getSensorRoute (JsNum.num (sid : ℚ))
         (run evs (step (Event.terminateCb sid)
            (step (Event.actionReq (JsNum.num (sid : ℚ)) ACTION_TERMINATE) st)))).1
        = HandlerResult.errorResp 404 "not found" := by
  have hq : ((sid : ℚ)) ≠ 0 := Nat.cast_ne_zero.mpr hsid
  have hroute := changeSensorRoute_found (sid : ℚ) ACTION_TERMINATE st sensor hq hfind
  rw [if_neg (not_not_intro hstatus)] at hroute
  rw [if_neg (by decide : ¬ (ACTION_TERMINATE = ACTION_RESTART))] at hroute
  rw [if_pos rfl] at hroute
  have hok : (changeSensorRoute (JsNum.num (sid : ℚ)) ACTION_TERMINATE st).1
      = HandlerResult.okResp := by rw [hroute]
  refine ⟨hok, ?_⟩
  have hsensorid : sensor.id = sid := by
    have h2 := (findById_some st.sensors (sid : ℚ) sensor hfind).2
    exact_mod_cast h2
  have hmem : sid ∈ st.sensors.map Sensor.id :=
    hsensorid ▸ List.mem_map_of_mem Sensor.id (findById_some st.sensors (sid : ℚ) sensor hfind).1
  have hlt : sid < st.nextId := hInv.1 sid hmem
  set st1 := step (Event.actionReq (JsNum.num (sid : ℚ)) ACTION_TERMINATE) st with hst1
  have hInv1 : Inv st1 := step_preserves_Inv _ st hInv
  set st2 := step (Event.terminateCb sid) st1 with hst2
  have hInv2 : Inv st2 := step_preserves_Inv _ st1 hInv1
  have hnm2 : sid ∉ st2.sensors.map Sensor.id := by
    have : st2.sensors = removeSensor st1.sensors sid := rfl
    rw [this]
    exact not_mem_removeSensor sid st1.sensors hInv1.2
  have hlt2 : sid < st2.nextId := by
    have e1 : st1.nextId = st.nextId :=
      (changeSensorRoute_state (JsNum.num (sid : ℚ)) ACTION_TERMINATE st).1
    have e2 : st2.nextId = st1.nextId := rfl
    rw [e2, e1]
    exact hlt
  have hfinal : sid ∉ (run evs st2).sensors.map Sensor.id :=
    run_preserves_not_mem evs st2 sid hInv2 hlt2 hnm2
  exact getSensorRoute_not_found sid (run evs st2) hsid hfinal

/-- Witness for C4: an ACTIVE sensor of id 1 is terminated, the completion
fires, and after no further events the lookup answers 404. -/
theorem C4_terminate_removes_permanently_witness :
    (changeSensorRoute (JsNum.num ((1 : Nat) : ℚ)) ACTION_TERMINATE
        ⟨2, [{ id := 1, frequency := 3, status := Status.ACTIVE, measurement := none }]⟩).1
      = HandlerResult.okResp
    ∧ (getSensorRoute (JsNum.num ((1 : Nat) : ℚ))
         (run [] (step (Event.terminateCb 1)
            (step (Event.actionReq (JsNum.num ((1 : Nat) : ℚ)) ACTION_TERMINATE)
              ⟨2, [{ id := 1, frequency := 3, status := Status.ACTIVE, measurement := none }]⟩)))).1
        = HandlerResult.errorResp 404 "not found" :=
  C4_terminate_removes_permanently
    ⟨2, [{ id := 1, frequency := 3, status := Status.ACTIVE, measurement := none }]⟩ 1
    { id := 1, frequency := 3, status := Status.ACTIVE, measurement := none }
    ⟨by decide, by decide⟩ (by decide) (by decide) (Or.inl rfl) []

/-- C8 counterexample: the claim quantifies over every route, but the index
route GET / (and likewise GET /debug) mounts no request-delay middleware at
all, so not every route applies the delay before the gate. -/
theorem C8_not_every_route_delayed :
    ¬ (∀ r ∈ routes, Stage.requestDelayMiddleware ∈ r.pipeline) := by
  decide

/-- C8 amended: the four sensor routes each run the request-delay middleware
and then the fault gate ahead of their handler, while GET / and GET /debug
mount neither; the delay itself is the affine image of the uniform [0,1)
draw onto [0,1000) milliseconds. -/
theorem C8_delay_on_sensor_routes (r : Route) (hr : r ∈ routes) (q : ℚ)
    (h0 : 0 ≤ q) (h1 : q < 1) :
    (r.path ≠ "/" → r.path ≠ "/debug" →
       r.pipeline.take 2 = [Stage.requestDelayMiddleware, Stage.randomErrorsMiddleware])
    ∧ ((r.path = "/" ∨ r.path = "/debug") →
        Stage.requestDelayMiddleware ∉ r.pipeline ∧ Stage.randomErrorsMiddleware ∉ r.pipeline)
    ∧ getRequestDelay q = 1000 * q ∧ 0 ≤ getRequestDelay q ∧ getRequestDelay q < 1000 := by
  have hroutes : ∀ x ∈ routes,
      (x.path ≠ "/" → x.path ≠ "/debug" →
        x.pipeline.take 2 = [Stage.requestDelayMiddleware, Stage.randomErrorsMiddleware])
      ∧ ((x.path = "/" ∨ x.path = "/debug") →
          Stage.requestDelayMiddleware ∉ x.pipeline
          ∧ Stage.randomErrorsMiddleware ∉ x.pipeline) := by decide
  have hdelay : getRequestDelay q = 1000 * q := by
    rw [getRequestDelay, DELAY_REQ_MIN, DELAY_REQ_MAX]
    ring
  refine ⟨(hroutes r hr).1, (hroutes r hr).2, hdelay, ?_, ?_⟩
  · rw [hdelay]
    positivity
  · rw [hdelay]
    nlinarith

/-- Witness for C8 at the sensor-ids route and the draw 1/2. -/
theorem C8_delay_on_sensor_routes_witness :
    ((Route.mk "GET" "/sensor-ids"
        [Stage.requestDelayMiddleware, Stage.randomErrorsMiddleware,
         Stage.sensorIdsHandler]).path ≠ "/" →
      (Route.mk "GET" "/sensor-ids"
        [Stage.requestDelayMiddleware, Stage.randomErrorsMiddleware,
         Stage.sensorIdsHandler]).path ≠ "/debug" →
      (Route.mk "GET" "/sensor-ids"
        [Stage.requestDelayMiddleware, Stage.randomErrorsMiddleware,
         Stage.sensorIdsHandler]).pipeline.take 2
        = [Stage.requestDelayMiddleware, Stage.randomErrorsMiddleware])
    ∧ (((Route.mk "GET" "/sensor-ids"
          [Stage.requestDelayMiddleware, Stage.randomErrorsMiddleware,
           Stage.sensorIdsHandler]).path = "/" ∨
        (Route.mk "GET" "/sensor-ids"
          [Stage.requestDelayMiddleware, Stage.randomErrorsMiddleware,
           Stage.sensorIdsHandler]).path = "/debug") →
        Stage.requestDelayMiddleware ∉
          (Route.mk "GET" "/sensor-ids"
            [Stage.requestDelayMiddleware, Stage.randomErrorsMiddleware,
             Stage.sensorIdsHandler]).pipeline
        ∧ Stage.randomErrorsMiddleware ∉
          (Route.mk "GET" "/sensor-ids"
            [Stage.requestDelayMiddleware, Stage.randomErrorsMiddleware,
             Stage.sensorIdsHandler]).pipeline)
    ∧ getRequestDelay (1/2) = 1000 * (1/2) ∧ 0 ≤ getRequestDelay (1/2)
    ∧ getRequestDelay (1/2) < 1000 :=
  C8_delay_on_sensor_routes
    (Route.mk "GET" "/sensor-ids"
      [Stage.requestDelayMiddleware, Stage.randomErrorsMiddleware, Stage.sensorIdsHandler])
    (by decide) (1/2) (by norm_num) (by norm_num)

end SensorServer
